import Mathlib

/-!
Shallow embedding of the baremp3 MPEG-1 Layer III decoder core
(src/decoder.rs, src/maindata_buffer.rs, src/types.rs), together with
theorems settling the specification claims about it.  Machine integers are
modelled as Nat with explicit wrap-around where the Rust code can overflow;
Rust code that can panic (failed asserts, arithmetic underflow on usize,
slice-bound errors, failed unwraps) is modelled with Option, and
Result-returning code with Except.
-/

namespace BareMP3

/-- Sync code (decoder.rs). -/
def MP3_SYNC_CODE : Nat := 0xFFF

/-- Sync code length in bits (decoder.rs). -/
def MP3_SYNC_CODE_LENGTH : Nat := 12

/-- Frame header size in bytes (decoder.rs). -/
def MP3_FRAMEHEADER_SIZE : Nat := 4

/-- Side information size for mono, bytes (decoder.rs). -/
def MP3_SIDEINFORMATION_SIZE_MONO : Nat := 17

/-- Side information size for stereo, bytes (decoder.rs). -/
def MP3_SIDEINFORMATION_SIZE_STEREO : Nat := 32

/-- Main data buffer size in bytes (maindata_buffer.rs). -/
def MP3_MAINDATA_BUFFER_SIZE : Nat := 4096

/-- Main data buffer size in bits (maindata_buffer.rs). -/
def MP3_MAINDATA_BUFFER_SIZE_BITS : Nat := 8 * MP3_MAINDATA_BUFFER_SIZE

/-- Maximum number of channels (types.rs). -/
def MP3_MAX_NUM_CHANNELS : Nat := 2

/-- Samples per frame (types.rs). -/
def MP3_NUM_SAMPLES_PER_FRAME : Nat := 1152

/-- Granules per frame (types.rs). -/
def MP3_NUM_GRANLES_PER_FRAME : Nat := 2

/-- Samples per granule (types.rs). -/
def MP3_NUM_SAMPLES_PER_GRANULE : Nat :=
  MP3_NUM_SAMPLES_PER_FRAME / MP3_NUM_GRANLES_PER_FRAME

/-- MPEG version (types.rs). -/
inductive MPEGVersion
  | MPEGVersion1
  | MPEGVersion2
  deriving DecidableEq

/-- Layer (types.rs). -/
inductive MP3Layer
  | Layer1
  | Layer2
  | Layer3
  deriving DecidableEq

/-- Bit rate enum (types.rs). -/
inductive MP3BitRate
  | Kbps0
  | Kbps32
  | Kbps40
  | Kbps48
  | Kbps56
  | Kbps64
  | Kbps80
  | Kbps96
  | Kbps112
  | Kbps128
  | Kbps160
  | Kbps192
  | Kbps224
  | Kbps256
  | Kbps320
  deriving DecidableEq, Fintype

/-- Numeric value of the bitrate enum: `header.bit_rate as usize` in bits
per second (types.rs discriminant values). -/
def MP3BitRate.val : MP3BitRate → Nat
  | .Kbps0 => 0
  | .Kbps32 => 32000
  | .Kbps40 => 40000
  | .Kbps48 => 48000
  | .Kbps56 => 56000
  | .Kbps64 => 64000
  | .Kbps80 => 80000
  | .Kbps96 => 96000
  | .Kbps112 => 112000
  | .Kbps128 => 128000
  | .Kbps160 => 160000
  | .Kbps192 => 192000
  | .Kbps224 => 224000
  | .Kbps256 => 256000
  | .Kbps320 => 320000

/-- Sampling rate enum (types.rs). -/
inductive MP3SamplingRate
  | Hz44100
  | Hz48000
  | Hz32000
  deriving DecidableEq, Fintype

/-- Numeric value of the sampling-rate enum: `header.sampling_rate as usize`
in Hz (types.rs discriminant values). -/
def MP3SamplingRate.val : MP3SamplingRate → Nat
  | .Hz44100 => 44100
  | .Hz48000 => 48000
  | .Hz32000 => 32000

/-- Channel mode (types.rs). -/
inductive MP3ChannelMode
  | Stereo
  | JointStereo
  | DualChannel
  | Monoral
  deriving DecidableEq, Fintype

/-- Extended channel mode (types.rs). -/
inductive MP3ExtChannelMode
  | IntensityStereo
  | MSStereo
  | NONE
  deriving DecidableEq

/-- Emphasis mode (types.rs). -/
inductive MP3EmphasisMode
  | NONE
  | FiftyFifteenMs
  | Reserved
  | CCITTJ17
  deriving DecidableEq

/-- Block type (types.rs). -/
inductive MP3BlockType
  | Normal
  | Start
  | Short
  | Stop
  deriving DecidableEq

/-- Frame header (types.rs `MP3FrameHeader`). -/
structure MP3FrameHeader where
  version : MPEGVersion
  layer : MP3Layer
  error_protection : Bool
  bit_rate : MP3BitRate
  sampling_rate : MP3SamplingRate
  padding : Bool
  extension : Nat
  channel_mode : MP3ChannelMode
  ext_channel_mode : MP3ExtChannelMode
  copyright : Bool
  original : Bool
  emphasis : MP3EmphasisMode
  deriving DecidableEq

/-- Granule information (types.rs `MP3GranuleInformation`).  The u16/u8
fields are modelled as Nat. -/
structure MP3GranuleInformation where
  part2_3_length : Nat
  big_values : Nat
  global_gain : Nat
  scalefac_compress : Nat
  window_switching_flag : Bool
  block_type : MP3BlockType
  mixed_block_flag : Bool
  table_select : Fin 3 → Nat
  subblock_gain : Fin 3 → Nat
  region0_count : Nat
  region1_count : Nat
  preflag : Bool
  scalefac_scale : Nat
  count1table_select : Nat

/-- The `Default` impl of `MP3GranuleInformation` (decoder.rs). -/
def MP3GranuleInformation.default : MP3GranuleInformation where
  part2_3_length := 0
  big_values := 0
  global_gain := 0
  scalefac_compress := 0
  window_switching_flag := false
  block_type := .Normal
  mixed_block_flag := false
  table_select := fun _ => 0
  subblock_gain := fun _ => 0
  region0_count := 0
  region1_count := 0
  preflag := false
  scalefac_scale := 0
  count1table_select := 0

/-- Per-channel side information (types.rs `MP3ChannelSideInformation`). -/
structure MP3ChannelSideInformation where
  scfsi : Fin 4 → Bool
  gr : Fin 2 → MP3GranuleInformation

/-- Side information (types.rs `MP3SideInformation`). -/
structure MP3SideInformation where
  maindata_begin : Nat
  private_bits : Nat
  ch : Fin 2 → MP3ChannelSideInformation

/-- Decode error (decoder.rs `MP3DecodeError`). -/
inductive MP3DecodeError
  | EndOfStream
  | InvalidHeader
  | InvalidSideInformation
  | InvalidFormat
  | InsufficientBuffer
  deriving DecidableEq

/-- Big-endian MSB-first bit of a byte list: bit `i` counts from the most
significant bit of byte 0 (semantics of the `bitreader` crate used by
decoder.rs). -/
def bitAt (data : List Nat) (i : Nat) : Nat :=
  data.getD (i / 8) 0 / 2 ^ (7 - i % 8) % 2

/-- Value of `n` bits MSB-first starting at bit position `pos`. -/
def readValAux (data : List Nat) : Nat → Nat → Nat
  | _, 0 => 0
  | pos, n + 1 => bitAt data pos * 2 ^ n + readValAux data (pos + 1) n

/-- Sequential MSB-first read of the `bitreader` crate as used by
decoder.rs: the value of `n` bits at position `pos` together with the new
position.  Both decoder.rs callers (`decode_frame_header`,
`decode_side_information`) first check that the data slice is large enough
for every read they perform, so the crate's `NotEnoughData` error (whose
`unwrap` would be a panic) is unreachable and the reader is modelled as a
total function. -/
def readV (data : List Nat) (pos n : Nat) : Nat × Nat :=
  (readValAux data pos n, pos + n)

/-- The crate's `read_bool`: one bit, true iff the bit is set. -/
def readB (data : List Nat) (pos : Nat) : Bool × Nat :=
  (readValAux data pos 1 == 1, pos + 1)

/-- Side information size (decoder.rs macro `get_sideinformation_size!`). -/
def get_sideinformation_size (header : MP3FrameHeader) : Nat :=
  match header.channel_mode with
  | .Monoral => MP3_SIDEINFORMATION_SIZE_MONO
  | _ => MP3_SIDEINFORMATION_SIZE_STEREO

/-- Main data size in bytes (decoder.rs `get_maindata_size`).  The Rust code
uses `-=` on usize; an underflow is a panic in a debug build and is modelled
as `none`.  The operations are performed in the source's order: add the
bitrate term, subtract the header size, subtract the side-information size,
add the padding byte, subtract the CRC bytes. -/
def get_maindata_size (header : MP3FrameHeader) : Option Nat :=
  let size := 144 * header.bit_rate.val / header.sampling_rate.val
  if size < MP3_FRAMEHEADER_SIZE then none else
  let size := size - MP3_FRAMEHEADER_SIZE
  if size < get_sideinformation_size header then none else
  let size := size - get_sideinformation_size header
  let size := if header.padding then size + 1 else size
  if header.error_protection then
    if size < 2 then none else some (size - 2)
  else
    some size

/-- ID3v2 tag size (decoder.rs `get_id3v2tag_size`).  Bytes `I`, `D`, `3`
are 73, 68, 51. -/
def get_id3v2tag_size (data : List Nat) : Except MP3DecodeError Nat :=
  if data.length < 10 then .error .InvalidHeader
  else if data.getD 0 0 ≠ 73 ∨ data.getD 1 0 ≠ 68 ∨ data.getD 2 0 ≠ 51 then .ok 0
  else .ok ((data.getD 6 0 <<< 21) + (data.getD 7 0 <<< 14) +
    (data.getD 8 0 <<< 7) + (data.getD 9 0 <<< 0))

/-- One probe of the sync-scan loop body (decoder.rs `find_sync_code`):
shift the accumulated u32 pattern left by one byte (wrapping), or in the
next byte, then compare against `MP3_SYNC_CODE_PATTERN = 0xFFF << 4`. -/
def syncStep (pattern b : Nat) : Nat :=
  ((pattern <<< 8) % 2 ^ 32) ||| b

/-- The pattern test of `find_sync_code`:
`(pattern & MP3_SYNC_CODE_PATTERN) == MP3_SYNC_CODE_PATTERN`. -/
def syncHit (pattern : Nat) : Bool :=
  (pattern &&& 0xFFF0) == 0xFFF0

/-- Scan loop of `find_sync_code` (decoder.rs): `pos` runs over
`1..(data.len() - 1)`.  The recursion is driven structurally by a fuel
counter so that the function reduces in the kernel; `find_sync_code` hands
in `data.length` fuel, which exceeds the number of loop steps
(`data.length - 2`), so the exhausted-fuel branch (which returns the same
`none` as the exhausted range) is never taken. -/
def findSyncLoop (data : List Nat) : Nat → Nat → Nat → Option Nat
  | _, _, 0 => none
  | pattern, pos, fuel + 1 =>
    if pos < data.length - 1 then
      let pattern := syncStep pattern (data.getD pos 0)
      if syncHit pattern then some (pos - 1)
      else findSyncLoop data pattern (pos + 1) fuel
    else none

/-- Sync code search (decoder.rs `find_sync_code`). -/
def find_sync_code (data : List Nat) : Option Nat :=
  if data.length < 2 then none
  else findSyncLoop data (data.getD 0 0) 1 data.length

/-- The `version` match of decoder.rs `decode_frame_header`. -/
def versionOfCode (v : Nat) : Option MPEGVersion :=
  match v with
  | 0 => some MPEGVersion.MPEGVersion2
  | 1 => some MPEGVersion.MPEGVersion1
  | _ => none

/-- The `layer` match of decoder.rs `decode_frame_header`, applied to
`4 - read_u8(2)`. -/
def layerOfCode (l : Nat) : Option MP3Layer :=
  match 4 - l with
  | 1 => some MP3Layer.Layer1
  | 2 => some MP3Layer.Layer2
  | 3 => some MP3Layer.Layer3
  | _ => none

/-- The `bit_rate` match of decoder.rs `decode_frame_header`. -/
def bitRateOfCode (br : Nat) : Option MP3BitRate :=
  match br with
  | 0 => some MP3BitRate.Kbps0
  | 1 => some MP3BitRate.Kbps32
  | 2 => some MP3BitRate.Kbps40
  | 3 => some MP3BitRate.Kbps48
  | 4 => some MP3BitRate.Kbps56
  | 5 => some MP3BitRate.Kbps64
  | 6 => some MP3BitRate.Kbps80
  | 7 => some MP3BitRate.Kbps96
  | 8 => some MP3BitRate.Kbps112
  | 9 => some MP3BitRate.Kbps128
  | 10 => some MP3BitRate.Kbps160
  | 11 => some MP3BitRate.Kbps192
  | 12 => some MP3BitRate.Kbps224
  | 13 => some MP3BitRate.Kbps256
  | 14 => some MP3BitRate.Kbps320
  | _ => none

/-- The `sampling_rate` match of decoder.rs `decode_frame_header`. -/
def samplingRateOfCode (sr : Nat) : Option MP3SamplingRate :=
  match sr with
  | 0 => some MP3SamplingRate.Hz44100
  | 1 => some MP3SamplingRate.Hz48000
  | 2 => some MP3SamplingRate.Hz32000
  | _ => none

/-- The `channel_mode` match of decoder.rs `decode_frame_header`. -/
def channelModeOfCode (cm : Nat) : Option MP3ChannelMode :=
  match cm with
  | 0 => some MP3ChannelMode.Stereo
  | 1 => some MP3ChannelMode.JointStereo
  | 2 => some MP3ChannelMode.DualChannel
  | 3 => some MP3ChannelMode.Monoral
  | _ => none

/-- The `ext_channel_mode` flag test of decoder.rs `decode_frame_header`. -/
def extChannelModeOfFlags (flags : Nat) : MP3ExtChannelMode :=
  if flags &&& 0x1 ≠ 0 then MP3ExtChannelMode.IntensityStereo
  else if flags &&& 0x2 ≠ 0 then MP3ExtChannelMode.MSStereo
  else MP3ExtChannelMode.NONE

/-- The `emphasis` match of decoder.rs `decode_frame_header`. -/
def emphasisOfCode (em : Nat) : Option MP3EmphasisMode :=
  match em with
  | 0 => some MP3EmphasisMode.NONE
  | 1 => some MP3EmphasisMode.FiftyFifteenMs
  | 2 => some MP3EmphasisMode.Reserved
  | 3 => some MP3EmphasisMode.CCITTJ17
  | _ => none

/-- Frame header decoding (decoder.rs `decode_frame_header`).  The reads
happen in the order of the Rust struct literal; the value matches of that
literal are the helper functions above. -/
def decode_frame_header (data : List Nat) : Option MP3FrameHeader := do
  if data.length < MP3_FRAMEHEADER_SIZE then none else
  let pos := 0
  let (sync, pos) := readV data pos MP3_SYNC_CODE_LENGTH
  if sync ≠ MP3_SYNC_CODE then none else
  let (v, pos) := readV data pos 1
  let version ← versionOfCode v
  let (l, pos) := readV data pos 2
  let layer ← layerOfCode l
  let (ep, pos) := readB data pos
  let (br, pos) := readV data pos 4
  let bit_rate ← bitRateOfCode br
  let (sr, pos) := readV data pos 2
  let sampling_rate ← samplingRateOfCode sr
  let (pad, pos) := readB data pos
  let (ext, pos) := readV data pos 1
  let (cm, pos) := readV data pos 2
  let channel_mode ← channelModeOfCode cm
  let (flags, pos) := readV data pos 2
  let ext_channel_mode := extChannelModeOfFlags flags
  let (cr, pos) := readB data pos
  let (og, pos) := readB data pos
  let (em, _) := readV data pos 2
  let emphasis ← emphasisOfCode em
  some { version := version, layer := layer, error_protection := !ep,
         bit_rate := bit_rate, sampling_rate := sampling_rate, padding := pad,
         extension := ext, channel_mode := channel_mode,
         ext_channel_mode := ext_channel_mode, copyright := cr,
         original := og, emphasis := emphasis }

/-- The `block_type` match of decoder.rs `decode_side_information`: a
`block_type` field of 0 (long/normal while window switching) aborts the
decode. -/
def blockTypeOfCode (btN : Nat) : Option MP3BlockType :=
  match btN with
  | 1 => some MP3BlockType.Start
  | 2 => some MP3BlockType.Short
  | 3 => some MP3BlockType.Stop
  | _ => none

/-- The `region0_count` match of decoder.rs `decode_side_information` in the
window-switching branch. -/
def region0OfBlock (bt : MP3BlockType) (mb : Bool) : Nat :=
  match bt, mb with
  | .Short, false => 8
  | _, _ => 7

/-- Decoding of one granule of side information: the per-granule body of the
`for gr`/`for ch` loop of decoder.rs `decode_side_information`. -/
def decode_granule_information (data : List Nat) (pos : Nat) :
    Option (MP3GranuleInformation × Nat) := do
  let (p23, pos) := readV data pos 12
  let (bv, pos) := readV data pos 9
  let (gg, pos) := readV data pos 8
  let (sfc, pos) := readV data pos 4
  let (wsf, pos) := readB data pos
  if wsf then
    let (btN, pos) := readV data pos 2
    let bt ← blockTypeOfCode btN
    let (mb, pos) := readB data pos
    let (t0, pos) := readV data pos 5
    let (t1, pos) := readV data pos 5
    let (sg0, pos) := readV data pos 3
    let (sg1, pos) := readV data pos 3
    let (sg2, pos) := readV data pos 3
    let r0c := region0OfBlock bt mb
    let r1c := 20 - r0c
    let (pf, pos) := readB data pos
    let (sfs, pos) := readV data pos 1
    let (c1s, pos) := readV data pos 1
    some ({ part2_3_length := p23, big_values := bv, global_gain := gg,
            scalefac_compress := sfc, window_switching_flag := true,
            block_type := bt, mixed_block_flag := mb,
            table_select := ![t0, t1, 0], subblock_gain := ![sg0, sg1, sg2],
            region0_count := r0c, region1_count := r1c, preflag := pf,
            scalefac_scale := sfs, count1table_select := c1s }, pos)
  else
    let (t0, pos) := readV data pos 5
    let (t1, pos) := readV data pos 5
    let (t2, pos) := readV data pos 5
    let (r0c, pos) := readV data pos 4
    let (r1c, pos) := readV data pos 3
    let (pf, pos) := readB data pos
    let (sfs, pos) := readV data pos 1
    let (c1s, pos) := readV data pos 1
    some ({ part2_3_length := p23, big_values := bv, global_gain := gg,
            scalefac_compress := sfc, window_switching_flag := false,
            block_type := .Normal, mixed_block_flag := false,
            table_select := ![t0, t1, t2], subblock_gain := ![0, 0, 0],
            region0_count := r0c, region1_count := r1c, preflag := pf,
            scalefac_scale := sfs, count1table_select := c1s }, pos)

/-- The 4-bit scfsi block of one channel (decoder.rs `decode_side_information`,
the inner `for i in 0..4` loop). -/
def readScfsi (data : List Nat) (pos : Nat) : (Fin 4 → Bool) × Nat :=
  let (b0, pos) := readB data pos
  let (b1, pos) := readB data pos
  let (b2, pos) := readB data pos
  let (b3, pos) := readB data pos
  (![b0, b1, b2, b3], pos)

/-- Side information decoding (decoder.rs `decode_side_information`).  The
`for gr in 0..2 { for ch in 0..num_channels }` loops run over the constant
index sets {0,1} x {0} (mono) or {0,1} x {0,1} (stereo) and are unrolled in
that order; the fields of the second channel that the mono path never writes
keep their zero/default initial values, exactly as in the Rust code. -/
def decode_side_information (header : MP3FrameHeader) (data : List Nat) :
    Option MP3SideInformation :=
  match header.version with
  | .MPEGVersion2 => none
  | .MPEGVersion1 =>
    if data.length < get_sideinformation_size header then none else
    let num_channels : Nat := match header.channel_mode with
      | .Monoral => 1
      | _ => 2
    do
    let pos := 0
    let (mdb, pos) := readV data pos 9
    let (priv, pos) := readV data pos (if num_channels = 1 then 5 else 3)
    let (scfsi0, pos) := readScfsi data pos
    let (scfsi1, pos) :=
      if num_channels = 2 then readScfsi data pos else (fun _ => false, pos)
    let g00p ← decode_granule_information data pos
    let g01p ←
      if num_channels = 2 then decode_granule_information data g00p.2
      else some (.default, g00p.2)
    let g10p ← decode_granule_information data g01p.2
    let g11p ←
      if num_channels = 2 then decode_granule_information data g10p.2
      else some (.default, g10p.2)
    some { maindata_begin := mdb, private_bits := priv,
           ch := ![⟨scfsi0, ![g00p.1, g10p.1]⟩, ⟨scfsi1, ![g01p.1, g11p.1]⟩] }

/-- Frame information decoding (decoder.rs `decode_frame_information`).
The outer `Option` models panics: `none` is the usize underflow of
`get_maindata_size` or of `data.len() - read_pos`. -/
def decode_frame_information (data : List Nat) :
    Option (Except MP3DecodeError
      (Nat × Nat × MP3FrameHeader × MP3SideInformation)) :=
  match find_sync_code data with
  | none => some (.error .EndOfStream)
  | some sync_pos =>
    let read_pos := sync_pos
    match decode_frame_header (data.drop read_pos) with
    | none => some (.error .InvalidHeader)
    | some header =>
      let read_pos := read_pos + MP3_FRAMEHEADER_SIZE
      match decode_side_information header (data.drop read_pos) with
      | none => some (.error .InvalidSideInformation)
      | some side_info =>
        let read_pos := read_pos + get_sideinformation_size header
        let read_pos := if header.error_protection then read_pos + 2 else read_pos
        if data.length < read_pos then none else
        match get_maindata_size header with
        | none => none
        | some mds =>
          some (.ok (read_pos, min (data.length - read_pos) mds, header, side_info))

/-- Main data buffer (maindata_buffer.rs `MP3MainDataBuffer`): a 4096-byte
ring with a byte write cursor and a bit read cursor. -/
structure MP3MainDataBuffer where
  buffer : Fin MP3_MAINDATA_BUFFER_SIZE → Nat
  write_pos : Nat
  read_pos_bits : Nat

/-- maindata_buffer.rs `MP3MainDataBuffer::new`. -/
def MP3MainDataBuffer.new : MP3MainDataBuffer :=
  { buffer := fun _ => 0, write_pos := 0, read_pos_bits := 0 }

/-- maindata_buffer.rs `MP3MainDataBuffer::reset`: zero the buffer and both
cursors. -/
def MP3MainDataBuffer.reset (_ : MP3MainDataBuffer) : MP3MainDataBuffer :=
  { buffer := fun _ => 0, write_pos := 0, read_pos_bits := 0 }

/-- maindata_buffer.rs `MP3MainDataBuffer::get_total_read_bits`. -/
def MP3MainDataBuffer.get_total_read_bits (b : MP3MainDataBuffer) : Nat :=
  b.read_pos_bits

/-- maindata_buffer.rs `MP3MainDataBuffer::seek`. -/
def MP3MainDataBuffer.seek (b : MP3MainDataBuffer) (position : Nat) :
    MP3MainDataBuffer :=
  { b with read_pos_bits := position }

/-- maindata_buffer.rs `MP3MainDataBuffer::align_next_byte`. -/
def MP3MainDataBuffer.align_next_byte (b : MP3MainDataBuffer) :
    MP3MainDataBuffer :=
  { b with read_pos_bits :=
      ((b.read_pos_bits + 7) >>> 3) <<< 3 % MP3_MAINDATA_BUFFER_SIZE_BITS }

/-- maindata_buffer.rs `MP3MainDataBuffer::skip`. -/
def MP3MainDataBuffer.skip (b : MP3MainDataBuffer) (nbits : Nat) :
    MP3MainDataBuffer :=
  { b with read_pos_bits := (b.read_pos_bits + nbits) % MP3_MAINDATA_BUFFER_SIZE_BITS }

/-- A `copy_from_slice` into the ring's backing array starting at byte
`start` (the slice assignments of `put_data`). -/
def writeRange (buffer : Fin MP3_MAINDATA_BUFFER_SIZE → Nat) (start : Nat)
    (src : List Nat) : Fin MP3_MAINDATA_BUFFER_SIZE → Nat :=
  fun i => if start ≤ i.val ∧ i.val < start + src.length
    then src.getD (i.val - start) 0 else buffer i

/-- maindata_buffer.rs `MP3MainDataBuffer::put_data`: wrapping byte write. -/
def MP3MainDataBuffer.put_data (b : MP3MainDataBuffer) (data : List Nat) :
    MP3MainDataBuffer :=
  let size := data.length
  if b.write_pos + size > MP3_MAINDATA_BUFFER_SIZE then
    let tail_size := MP3_MAINDATA_BUFFER_SIZE - b.write_pos
    let head_pos := size - tail_size
    { b with
      buffer := writeRange (writeRange b.buffer b.write_pos (data.take tail_size))
        0 (data.drop tail_size),
      write_pos := head_pos }
  else
    { b with buffer := writeRange b.buffer b.write_pos data,
             write_pos := b.write_pos + size }

/-- The `positon_isin_count1data!` macro of decoder.rs `decode_huffman`
(source spelling kept). -/
def positon_isin_count1data (position part2_start part3_end : Nat) : Bool :=
  if part3_end ≥ part2_start then
    decide (position ≥ part2_start) && decide (position < part3_end)
  else
    decide (position ≥ part2_start) || decide (position < part3_end)

/-- The big-value pair loop of decoder.rs `decode_huffman`
(`for i in (0..(2 * big_values)).step_by(2)`).  `bigDec` stands for
`mp3_huffman_decode_big_value` of the crate's huffman module, which is not
part of the sources under verification; it is kept abstract as an arbitrary
buffer transformer returning the decoded `(x, y)` pair.  The spectrum is a
total function `Nat → Int` (the Rust `[f32; 576]` holds the decoded small
integers at this stage).  The recursion is driven structurally by a fuel
counter so that the function reduces in the kernel: the loop runs only
while `i < bound`, adding 2 to `i` each step, so `decode_huffman` hands in
`MP3_NUM_SAMPLES_PER_GRANULE` fuel, more than the possible number of steps,
and the exhausted-fuel branch (which returns the same loop-exit value) is
never taken. -/
def big_values_loop
    (bigDec : Nat → MP3MainDataBuffer → (Int × Int) × MP3MainDataBuffer)
    (tsel : Fin 3 → Nat) (region1_start region2_start bound : Nat) :
    Nat → Nat → (Nat → Int) → MP3MainDataBuffer → (Nat → Int) × MP3MainDataBuffer
  | 0, _, out, buf => (out, buf)
  | fuel + 1, i, out, buf =>
    if i < bound then
      let index := if i < region1_start then tsel 0
        else if i < region2_start then tsel 1
        else tsel 2
      let xyb := bigDec index buf
      let out := Function.update (Function.update out i xyb.1.1) (i + 1) xyb.1.2
      big_values_loop bigDec tsel region1_start region2_start bound fuel (i + 2) out xyb.2
    else (out, buf)

/-- The count1 quadruple loop of decoder.rs `decode_huffman`.  `c1Dec`
stands for `mp3_huffman_decode_count1_data` of the crate's huffman module
(not part of the sources under verification), kept abstract; it returns the
decoded `(x, y, v, w)` quadruple.  The loop writes the first pair, writes
the second pair only when `i + 2 < 576`, and advances by 4, re-reading the
cursor as `position` each iteration exactly as the Rust `while` does.
Returns the final `i`, spectrum and buffer.  The recursion is driven
structurally by a fuel counter so that the function reduces in the kernel:
the loop runs only while `i < 576`, adding 4 to `i` each step, so
`decode_huffman` hands in `MP3_NUM_SAMPLES_PER_GRANULE` fuel, more than the
possible number of steps, and the exhausted-fuel branch (which returns the
same loop-exit value) is never taken. -/
def count1_loop
    (c1Dec : Nat → MP3MainDataBuffer → (Int × Int × Int × Int) × MP3MainDataBuffer)
    (c1sel part2_start part3_end : Nat) :
    Nat → Nat → (Nat → Int) → MP3MainDataBuffer → Nat × (Nat → Int) × MP3MainDataBuffer
  | 0, i, out, buf => (i, out, buf)
  | fuel + 1, i, out, buf =>
    if i < MP3_NUM_SAMPLES_PER_GRANULE ∧
        positon_isin_count1data buf.get_total_read_bits part2_start part3_end then
      let q := c1Dec c1sel buf
      let out := Function.update (Function.update out i q.1.1) (i + 1) q.1.2.1
      let out :=
        if i + 2 < MP3_NUM_SAMPLES_PER_GRANULE then
          Function.update (Function.update out (i + 2) q.1.2.2.1) (i + 3) q.1.2.2.2
        else out
      count1_loop c1Dec c1sel part2_start part3_end fuel (i + 4) out q.2
    else (i, out, buf)

/-- The `(region1_start, region2_start)` match of decoder.rs
`decode_huffman`: a window-switched short block uses the fixed pair
`(36, 576)`, every other block type derives both boundaries from the long
scale-factor-band index table. -/
def huffman_regions (long_table : Nat → Nat)
    (granule : MP3GranuleInformation) : Nat × Nat :=
  match granule.block_type with
  | .Short =>
    if granule.window_switching_flag then (36, MP3_NUM_SAMPLES_PER_GRANULE)
    else (long_table (granule.region0_count + 1),
      long_table (granule.region0_count + 1 + granule.region1_count + 1))
  | _ => (long_table (granule.region0_count + 1),
      long_table (granule.region0_count + 1 + granule.region1_count + 1))

/-- Quantized-spectrum Huffman decoding (decoder.rs `decode_huffman`).
`long_table` stands for the `.long` scale-factor-band index table selected
by `get_scalefactorband_index_table!(header.sampling_rate)`; that table
lives in the crate's huffman/synthesis module, which is not part of the
sources under verification, so it is an abstract parameter here together
with the two Huffman decoding primitives.  The `assert!` on `big_values`
is modelled as `none` (a failed assert is a panic). -/
def decode_huffman
    (bigDec : Nat → MP3MainDataBuffer → (Int × Int) × MP3MainDataBuffer)
    (c1Dec : Nat → MP3MainDataBuffer → (Int × Int × Int × Int) × MP3MainDataBuffer)
    (long_table : Nat → Nat) (granule : MP3GranuleInformation)
    (part2_start : Nat) (out : Nat → Int) (buf : MP3MainDataBuffer) :
    Option ((Nat → Int) × MP3MainDataBuffer) :=
  let part3_end := (part2_start + granule.part2_3_length) % MP3_MAINDATA_BUFFER_SIZE_BITS
  let rs : Nat × Nat := huffman_regions long_table granule
  if ¬ (2 * granule.big_values ≤ MP3_NUM_SAMPLES_PER_GRANULE) then none else
  let ob := big_values_loop bigDec granule.table_select rs.1 rs.2
    (2 * granule.big_values) MP3_NUM_SAMPLES_PER_GRANULE 0 out buf
  let iob := count1_loop c1Dec granule.count1table_select
    part2_start part3_end MP3_NUM_SAMPLES_PER_GRANULE
    (2 * granule.big_values) ob.1 ob.2
  let position := iob.2.2.get_total_read_bits
  let i := if iob.1 > 2 * granule.big_values ∧ position ≠ part3_end ∧
      ¬ positon_isin_count1data position part2_start part3_end
    then iob.1 - 4 else iob.1
  let out2 := if i < MP3_NUM_SAMPLES_PER_GRANULE then
      fun j => if i ≤ j ∧ j < MP3_NUM_SAMPLES_PER_GRANULE then 0 else iob.2.1 j
    else iob.2.1
  let buf2 := if position ≠ part3_end then iob.2.2.seek part3_end else iob.2.2
  some (out2, buf2)

/-- Decoder state (decoder.rs `MP3Decoder`).  The per-channel hybrid
synthesis buffer `MP3SynthesisBuffer` lives in hybrid_synthesis.rs, which is
not part of the sources under verification, so its state is an abstract type
parameter. -/
structure MP3Decoder (σ : Type) where
  maindata_buffer : MP3MainDataBuffer
  synth_buffer : Fin 2 → σ
  maindata_start : Nat

/-- Decoder reset (decoder.rs `MP3Decoder::reset`): reset the main data
buffer, reset both synthesis buffers, zero `maindata_start`.  Modelled from
the spec: `MP3SynthesisBuffer::reset` (hybrid_synthesis.rs is absent from
the sources) clears the per-channel synthesis state, modelled as restoring
a designated initial state `init`. -/
def MP3Decoder.reset (d : MP3Decoder σ) (init : σ) : MP3Decoder σ :=
  { maindata_buffer := d.maindata_buffer.reset,
    synth_buffer := fun _ => init,
    maindata_start := 0 }

/-- The type of the granule decoding stage.  Modelled from the spec: the
body of decoder.rs `decode_maindata` (scale factors, Huffman decoding,
requantization and the hybrid filter bank) depends on the absent huffman.rs
and hybrid_synthesis.rs modules and on f32 arithmetic, so it is kept
abstract as a deterministic transformer of the decoder state that produces
the frame's per-channel samples. -/
def MaindataStage (σ : Type) : Type :=
  MP3FrameHeader → MP3SideInformation → MP3Decoder σ →
    MP3Decoder σ × (Fin 2 → List Int)

/-- The channel-count check of decoder.rs `decode_frame`: stereo-family
modes need at least two output channels, mono at least one. -/
def bufferTooSmall (cm : MP3ChannelMode) (buffer_len : Nat) : Bool :=
  match cm with
  | .Stereo | .JointStereo | .DualChannel => buffer_len < 2
  | .Monoral => buffer_len < 1

/-- Single-frame decoding (decoder.rs `MP3Decoder::decode_frame`): frame
information, channel check, feeding the main data bytes into the reservoir,
then the abstract granule stage `md`.  The outer `Option` models panics
propagated from `decode_frame_information`. -/
def decode_frame (md : MaindataStage σ) (d : MP3Decoder σ) (data : List Nat)
    (buffer_len : Nat) :
    Option (Except MP3DecodeError
      (Nat × MP3FrameHeader × MP3SideInformation × MP3Decoder σ × (Fin 2 → List Int))) :=
  match decode_frame_information data with
  | none => none
  | some (.error e) => some (.error e)
  | some (.ok (header_size, maindata_size, header, side_info)) =>
    if bufferTooSmall header.channel_mode buffer_len then
      some (.error .InsufficientBuffer)
    else
      let d := { d with maindata_buffer :=
        d.maindata_buffer.put_data ((data.drop header_size).take maindata_size) }
      let (d, samples) := md header side_info d
      some (.ok (header_size + maindata_size, header, side_info, d, samples))

/-- The frame loop of decoder.rs `MP3Decoder::decode_whole`.  The caller's
output slices are modelled by their lengths `out_len` plus per-channel lists
accumulating the written samples; the `copy_from_slice` panic on a too-short
output slice is `none`.  The loop is driven by fuel: every decoded frame
consumes at least the header and side-information bytes, so
`data.length + 1` steps (supplied by `decode_whole`) can never be exhausted
before the `EndOfStream` break. -/
def decode_whole_loop (md : MaindataStage σ) (data : List Nat)
    (num_channels : Nat) (out_len : Fin 2 → Nat) :
    Nat → MP3Decoder σ → Nat → Nat → (Fin 2 → List Int) →
    Option (Except MP3DecodeError (Nat × Nat × (Fin 2 → List Int)))
  | 0, _, _, _, _ => none
  | fuel + 1, d, read_pos, num_samples, out =>
    match decode_frame md d (data.drop read_pos) 2 with
    | none => none
    | some (.error .EndOfStream) => some (.ok (read_pos, num_samples, out))
    | some (.error e) => some (.error e)
    | some (.ok (size, _, _, d, samples)) =>
      if ∀ ch : Fin 2, ch.val < num_channels →
          num_samples + MP3_NUM_SAMPLES_PER_FRAME ≤ out_len ch then
        let out := fun ch : Fin 2 =>
          if ch.val < num_channels then out ch ++ samples ch else out ch
        decode_whole_loop md data num_channels out_len fuel d
          (read_pos + size) (num_samples + MP3_NUM_SAMPLES_PER_FRAME) out
      else none

/-- Whole-stream decoding (decoder.rs `MP3Decoder::decode_whole`): reset the
decoder state, derive the channel count from the caller's output buffers
(`out_count` slices with lengths `out_len`), skip the ID3v2 tag, then run
the frame loop until `EndOfStream`. -/
def decode_whole (md : MaindataStage σ) (init : σ) (d : MP3Decoder σ)
    (data : List Nat) (out_count : Nat) (out_len : Fin 2 → Nat) :
    Option (Except MP3DecodeError (Nat × Nat × (Fin 2 → List Int))) :=
  let d := d.reset init
  let num_channels : Nat :=
    if out_count = 2 then (if out_len 1 > 0 then 2 else 1) else 1
  match get_id3v2tag_size data with
  | .error e => some (.error e)
  | .ok read_pos =>
    decode_whole_loop md data num_channels out_len (data.length + 1) d
      read_pos 0 (fun _ => [])

/-- Main-data size formula stated by the spec (section 3, "Derived frame
size"), over Int and in the claim's order:
`144*bit_rate/sampling_rate + (padding?1:0) - 4 - side_info_size -
(error_protection?2:0)`. -/
def maindata_size_spec (h : MP3FrameHeader) : Int :=
  ((144 * h.bit_rate.val / h.sampling_rate.val : Nat) : Int)
    + (if h.padding then 1 else 0) - 4
    - (get_sideinformation_size h : Int)
    - (if h.error_protection then 2 else 0)

/-- The claim's sync condition at byte index `p`: the 12 most significant
bits of the two bytes `data[p]`, `data[p+1]` equal 0xFFF. -/
def sync_at (data : List Nat) (p : Nat) : Prop :=
  (data.getD p 0 * 256 + data.getD (p + 1) 0) / 16 = MP3_SYNC_CODE

/-- The per-granule invariant stated by claim C7 for the output of
`decode_side_information`. -/
def granule_invariant (g : MP3GranuleInformation) : Prop :=
  g.window_switching_flag = true →
    g.block_type ≠ .Normal ∧
    g.region0_count =
      (if g.block_type = .Short ∧ g.mixed_block_flag = false then 8 else 7) ∧
    g.region1_count = 20 - g.region0_count

/-- Example mono MPEG-1 header (128 kbps, 44.1 kHz), used as a concrete
input below. -/
def example_mono_header : MP3FrameHeader where
  version := .MPEGVersion1
  layer := .Layer3
  error_protection := false
  bit_rate := .Kbps128
  sampling_rate := .Hz44100
  padding := false
  extension := 0
  channel_mode := .Monoral
  ext_channel_mode := .NONE
  copyright := false
  original := false
  emphasis := .NONE

/-- The header that `decode_frame_header` produces for the bytes
`FF FB 00 C0`: a free-format (bitrate code 0) MPEG-1 Layer III mono frame. -/
def kbps0_header : MP3FrameHeader where
  version := .MPEGVersion1
  layer := .Layer3
  error_protection := false
  bit_rate := .Kbps0
  sampling_rate := .Hz44100
  padding := false
  extension := 0
  channel_mode := .Monoral
  ext_channel_mode := .NONE
  copyright := false
  original := false
  emphasis := .NONE

/-- Claim C1 (code bug): on the 10-byte ID3v2 header `"ID3"` with syncsafe
size field 1, `get_id3v2tag_size` returns `Ok 1`: it omits the 10 bytes of
the ID3v2 header itself, while the claim (with the spec and the function's
own doc comment, which promises the size of the whole tag) requires
`Ok (10 + 1)`.  The non-tag path does return `Ok 0` as claimed. -/
theorem claim_C1_id3v2_missing_header :
    get_id3v2tag_size [73, 68, 51, 3, 0, 0, 0, 0, 0, 1] = .ok 1 ∧
    get_id3v2tag_size [73, 68, 51, 3, 0, 0, 0, 0, 0, 1] ≠ .ok (10 + 1) ∧
    get_id3v2tag_size [0, 68, 51, 3, 0, 0, 0, 0, 0, 1] = .ok 0 := by
  refine ⟨rfl, ?_, rfl⟩
  intro h
  exact absurd (Except.ok.inj h) (by decide)

/-- Claim C10 (code bug): `decode_frame_header` accepts the bitrate code 0
(`FF FB 00 C0` parses to `Kbps0`), and on that header the subtraction
`size -= MP3_FRAMEHEADER_SIZE` in `get_maindata_size` underflows usize
(`144 * 0 / 44100 = 0 < 4`), a panic; `decode_frame_information`, which
calls `get_maindata_size` on every accepted header, hits that panic on the
21-byte frame formed by this header plus an all-zero side information. -/
theorem claim_C10_kbps0_underflow :
    (decode_frame_header [255, 251, 0, 192]).map
        (fun h => (h.bit_rate, get_maindata_size h)) = some (.Kbps0, none) ∧
    (decode_frame_information ([255, 251, 0, 192] ++ List.replicate 17 0)).isNone = true := by
  exact ⟨by decide, by decide⟩

/-- Side-information bytes (mono layout, 17 bytes) whose first granule has
`big_values = 511`: bits 30..38 are set, everything else is zero. -/
def c5_side_data : List Nat := [0, 0, 0, 3, 254] ++ List.replicate 12 0

/-- Claim C5 (code bug): the 9-bit `big_values` field is written into the
side information without any range check, so `decode_side_information`
accepts a granule with `big_values = 511`, for which
`2 * big_values = 1022 > 576`: the `assert!` at the start of big-value
decoding in `decode_huffman` fails (a panic) on decoder-accepted side
information, contradicting the claimed invariant. -/
theorem claim_C5_big_values_unchecked :
    (decode_side_information example_mono_header c5_side_data).map
        (fun si => ((si.ch 0).gr 0).big_values) = some 511 ∧
    ¬ (2 * 511 ≤ MP3_NUM_SAMPLES_PER_GRANULE) := by
  exact ⟨by decide, by decide⟩

/-- Claim C3, counterexample: for the parsed free-format header
(`decode_frame_header` accepts bitrate code 0), `get_maindata_size`
computes no value at all (usize underflow, a panic), so it does not equal
the claimed formula (which is the negative number -21 here). -/
theorem claim_C3_counterexample :
    decode_frame_header [255, 251, 0, 192] = some kbps0_header ∧
    (get_maindata_size kbps0_header).map (fun n => (n : Int)) ≠
      some (maindata_size_spec kbps0_header) := by
  exact ⟨by decide, by decide⟩

/-- Claim C3 as amended: for every parsed frame header whose bitrate is not
the free-format code 0, `get_maindata_size` returns exactly
`144*bit_rate/sampling_rate + (padding?1:0) - 4 - side_info_size -
(error_protection?2:0)` (with side_info_size 17 for mono and 32
otherwise). -/
theorem claim_C3_maindata_size (h : MP3FrameHeader)
    (hbr : h.bit_rate ≠ .Kbps0) :
    (get_maindata_size h).map (fun n => (n : Int)) =
      some (maindata_size_spec h) := by
  have key : ∀ (ep : Bool) (br : MP3BitRate) (sr : MP3SamplingRate)
      (pad : Bool) (cm : MP3ChannelMode), br ≠ .Kbps0 →
      (get_maindata_size ⟨.MPEGVersion1, .Layer3, ep, br, sr, pad, 0, cm,
          .NONE, false, false, .NONE⟩).map (fun n => (n : Int)) =
        some (maindata_size_spec ⟨.MPEGVersion1, .Layer3, ep, br, sr, pad,
          0, cm, .NONE, false, false, .NONE⟩) := by decide
  exact key h.error_protection h.bit_rate h.sampling_rate h.padding
    h.channel_mode hbr

/-- Claim C3 witness: the amended theorem applied to a concrete header
(mono, 128 kbps, 44.1 kHz: 18432000/44100 = 417, 417 - 4 - 17 = 396). -/
theorem claim_C3_maindata_size_witness :
    example_mono_header.bit_rate ≠ .Kbps0 ∧
    (get_maindata_size example_mono_header).map (fun n => (n : Int)) =
      some (maindata_size_spec example_mono_header) :=
  ⟨by decide, claim_C3_maindata_size example_mono_header (by decide)⟩

/-- Claim C9: `decode_whole` resets the reservoir, the synthesis state and
the main-data start position before decoding, so its whole result (bytes
consumed, sample count, all written samples, and any error or panic) is the
same from any two prior decoder states; in particular a used instance and a
fresh one decode identically. -/
theorem claim_C9_decode_whole_state_independent {σ : Type}
    (md : MaindataStage σ) (init : σ) (d1 d2 : MP3Decoder σ)
    (data : List Nat) (out_count : Nat) (out_len : Fin 2 → Nat) :
    decode_whole md init d1 data out_count out_len =
      decode_whole md init d2 data out_count out_len := rfl

/-- Cursor reconciliation step of `decode_huffman`: the final conditional
seek always leaves the read cursor at `p`. -/
theorem seek_reconcile (b : MP3MainDataBuffer) (p : Nat) :
    (if b.get_total_read_bits ≠ p then b.seek p else b).get_total_read_bits
      = p := by
  by_cases h : b.get_total_read_bits = p
  · rw [if_neg (not_not_intro h)]
    exact h
  · rw [if_pos h]
    rfl

/-- Claim C2: whatever the scale-factor stage and the (abstract) Huffman
primitives consumed, `decode_huffman` leaves the main-data read cursor at
exactly `(part2_start + part2_3_length) mod (8*4096)`: the final
reconciliation seeks to `part3_end` whenever the cursor is not already
there. -/
theorem claim_C2_huffman_cursor
    (bigDec : Nat → MP3MainDataBuffer → (Int × Int) × MP3MainDataBuffer)
    (c1Dec : Nat → MP3MainDataBuffer → (Int × Int × Int × Int) × MP3MainDataBuffer)
    (long_table : Nat → Nat) (granule : MP3GranuleInformation)
    (part2_start : Nat) (out : Nat → Int) (buf : MP3MainDataBuffer)
    (hbv : 2 * granule.big_values ≤ MP3_NUM_SAMPLES_PER_GRANULE) :
    (decode_huffman bigDec c1Dec long_table granule part2_start out buf).map
        (fun r => r.2.get_total_read_bits) =
      some ((part2_start + granule.part2_3_length) %
        MP3_MAINDATA_BUFFER_SIZE_BITS) := by
  unfold decode_huffman
  rw [if_neg (not_not_intro hbv)]
  exact congrArg some (seek_reconcile _ _)

/-- Claim C2 witness: the cursor theorem applied to the default granule,
trivial Huffman primitives, and a fresh buffer. -/
theorem claim_C2_huffman_cursor_witness :
    2 * MP3GranuleInformation.default.big_values ≤ MP3_NUM_SAMPLES_PER_GRANULE ∧
    (decode_huffman (fun _ b => ((0, 0), b)) (fun _ b => ((0, 0, 0, 0), b))
        (fun _ => 0) .default 0 (fun _ => 0) .new).map
        (fun r => r.2.get_total_read_bits) =
      some ((0 + MP3GranuleInformation.default.part2_3_length) %
        MP3_MAINDATA_BUFFER_SIZE_BITS) :=
  ⟨by decide,
   claim_C2_huffman_cursor (fun _ b => ((0, 0), b)) (fun _ b => ((0, 0, 0, 0), b))
     (fun _ => 0) .default 0 (fun _ => 0) .new (by decide)⟩

/-- Claim C8: `decode_side_information` returns `None` for every MPEG-2
header, and consequently `decode_frame_information` fails with
`InvalidSideInformation` whenever the synced frame header parses with
version MPEG-2 (`decode_frame` then propagates that error via `?`). -/
theorem claim_C8_mpeg2_rejected :
    (∀ (header : MP3FrameHeader) (data : List Nat),
        header.version = .MPEGVersion2 →
        decode_side_information header data = none) ∧
    (∀ (data : List Nat) (pos : Nat) (header : MP3FrameHeader),
        find_sync_code data = some pos →
        decode_frame_header (data.drop pos) = some header →
        header.version = .MPEGVersion2 →
        decode_frame_information data =
          some (.error .InvalidSideInformation)) := by
  have key : ∀ (header : MP3FrameHeader) (data : List Nat),
      header.version = .MPEGVersion2 →
      decode_side_information header data = none := by
    intro header data hv
    unfold decode_side_information
    rw [hv]
  refine ⟨key, ?_⟩
  intro data pos header hsync hhdr hv
  have hside := key header (List.drop (pos + MP3_FRAMEHEADER_SIZE) data) hv
  unfold decode_frame_information
  simp only [hsync, hhdr, hside]

/-- Claim C8 witness: the concrete 4-byte MPEG-2 frame `FF F3 10 C0`. -/
theorem claim_C8_mpeg2_rejected_witness :
    find_sync_code [255, 243, 16, 192] = some 0 ∧
    decode_frame_header (([255, 243, 16, 192] : List Nat).drop 0) =
      some { version := .MPEGVersion2, layer := .Layer3,
             error_protection := false, bit_rate := .Kbps32,
             sampling_rate := .Hz44100, padding := false, extension := 0,
             channel_mode := .Monoral, ext_channel_mode := .NONE,
             copyright := false, original := false, emphasis := .NONE } ∧
    decode_frame_information [255, 243, 16, 192] =
      some (.error .InvalidSideInformation) :=
  ⟨by decide, by decide,
   claim_C8_mpeg2_rejected.2 [255, 243, 16, 192] 0
     { version := .MPEGVersion2, layer := .Layer3,
       error_protection := false, bit_rate := .Kbps32,
       sampling_rate := .Hz44100, padding := false, extension := 0,
       channel_mode := .Monoral, ext_channel_mode := .NONE,
       copyright := false, original := false, emphasis := .NONE }
     (by decide) (by decide) rfl⟩

/-- The `block_type` value match of `decode_side_information` only produces
non-Normal block types. -/
theorem blockTypeOfCode_ne_normal (n : Nat) (bt : MP3BlockType)
    (h : blockTypeOfCode n = some bt) : bt ≠ .Normal := by
  rcases n with _ | _ | _ | _ | m
  · exact Option.noConfusion h
  · cases Option.some.inj h
    decide
  · cases Option.some.inj h
    decide
  · cases Option.some.inj h
    decide
  · exact Option.noConfusion h

/-- The window-switching `region0_count` assignment agrees with the
claim's description. -/
theorem region0OfBlock_eq (bt : MP3BlockType) (mb : Bool) :
    region0OfBlock bt mb = (if bt = .Short ∧ mb = false then 8 else 7) := by
  cases bt <;> cases mb <;> rfl

/-- Every granule produced by `decode_granule_information` satisfies the
window-switching invariants. -/
theorem decode_granule_information_invariant (data : List Nat) (pos : Nat)
    (g : MP3GranuleInformation) (p : Nat)
    (h : decode_granule_information data pos = some (g, p)) :
    granule_invariant g := by
  unfold decode_granule_information at h
  simp only [readV, readB] at h
  split at h
  · -- window_switching_flag branch: one Option bind on the block type
    cases hbt : blockTypeOfCode (readValAux data (pos + 12 + 9 + 8 + 4 + 1) 2)
    · rw [hbt] at h
      exact Option.noConfusion h
    · rename_i bt
      rw [hbt] at h
      cases Option.some.inj h
      intro _
      refine ⟨blockTypeOfCode_ne_normal _ _ hbt, ?_, rfl⟩
      exact region0OfBlock_eq bt _
  · -- normal branch: the granule literal has window_switching_flag false
    cases Option.some.inj h
    intro hw
    exact Bool.noConfusion hw

/-- `granule_invariant` holds for the default granule (its
`window_switching_flag` is false). -/
theorem granule_invariant_default : granule_invariant .default := by
  intro hw
  exact Bool.noConfusion hw

/-- Bind elimination for postconditions of optional results. -/
theorem elim_bind {α β : Type} (e : Option α) (f : α → Option β)
    (P : β → Prop) (h : ∀ a, e = some a → ((f a).elim True P : Prop)) :
    ((e.bind f).elim True P : Prop) := by
  cases e
  · trivial
  · exact h _ rfl

theorem claim_C7_side_information_invariants (header : MP3FrameHeader)
    (data : List Nat) :
    ((decode_side_information header data).elim True
      (fun si => ∀ c g : Fin 2, granule_invariant ((si.ch c).gr g)) : Prop) := by
  unfold decode_side_information
  split
  · trivial
  · cases hcm : header.channel_mode <;>
      (split
       · trivial
       · refine elim_bind _ _ _ ?_
         intro g00p h00
         refine elim_bind _ _ _ ?_
         intro g01p h01
         first
           | (refine elim_bind _ _ _ ?_
              intro g10p h10)
           | skip
         first
           | (refine elim_bind _ _ _ ?_
              intro g11p h11)
           | skip
         intro c g
         fin_cases c <;> fin_cases g <;>
           simp only [Matrix.cons_val_zero, Matrix.cons_val_one,
             Matrix.head_cons] <;>
           first
             | exact decode_granule_information_invariant _ _ _ _ h00
             | exact decode_granule_information_invariant _ _ _ _ h10
             | exact decode_granule_information_invariant _ _ _ _ h01
             | exact decode_granule_information_invariant _ _ _ _ h11
             | exact granule_invariant_default)

/-- The big-value loop never writes at or beyond index 576: from an even
start below an even bound of at most 576, every write lands strictly below
576. -/
theorem big_values_loop_frozen
    (bigDec : Nat → MP3MainDataBuffer → (Int × Int) × MP3MainDataBuffer)
    (tsel : Fin 3 → Nat) (r1 r2 bound : Nat)
    (hbound : bound ≤ MP3_NUM_SAMPLES_PER_GRANULE) (hb2 : bound % 2 = 0) :
    ∀ (fuel i : Nat) (out : Nat → Int) (buf : MP3MainDataBuffer) (j : Nat),
      i % 2 = 0 → MP3_NUM_SAMPLES_PER_GRANULE ≤ j →
      (big_values_loop bigDec tsel r1 r2 bound fuel i out buf).1 j = out j := by
  have hN : MP3_NUM_SAMPLES_PER_GRANULE = 576 := rfl
  intro fuel
  induction fuel with
  | zero =>
    intro i out buf j hi hj
    rfl
  | succ n ih =>
    intro i out buf j hi hj
    simp only [big_values_loop]
    by_cases hlt : i < bound
    · rw [if_pos hlt]
      refine (ih (i + 2) _ _ j (by omega) hj).trans ?_
      rw [Function.update_noteq (by omega), Function.update_noteq (by omega)]
    · rw [if_neg hlt]

/-- The count1 loop never writes at or beyond index 576: from an even start,
the first pair lands at `i < 576`, `i + 1 ≤ 575`, and the second pair is
guarded by `i + 2 < 576`. -/
theorem count1_loop_frozen
    (c1Dec : Nat → MP3MainDataBuffer → (Int × Int × Int × Int) × MP3MainDataBuffer)
    (c1sel p2s p3e : Nat) :
    ∀ (fuel i : Nat) (out : Nat → Int) (buf : MP3MainDataBuffer) (j : Nat),
      i % 2 = 0 → MP3_NUM_SAMPLES_PER_GRANULE ≤ j →
      (count1_loop c1Dec c1sel p2s p3e fuel i out buf).2.1 j = out j := by
  have hN : MP3_NUM_SAMPLES_PER_GRANULE = 576 := rfl
  intro fuel
  induction fuel with
  | zero =>
    intro i out buf j hi hj
    rfl
  | succ n ih =>
    intro i out buf j hi hj
    simp only [count1_loop]
    by_cases hc : i < MP3_NUM_SAMPLES_PER_GRANULE ∧
        positon_isin_count1data buf.get_total_read_bits p2s p3e = true
    · rw [if_pos hc]
      refine (ih (i + 4) _ _ j (by omega) hj).trans ?_
      have hi576 : i < 576 := by omega
      by_cases h2 : i + 2 < MP3_NUM_SAMPLES_PER_GRANULE
      · rw [if_pos h2]
        rw [Function.update_noteq (by omega), Function.update_noteq (by omega),
          Function.update_noteq (by omega), Function.update_noteq (by omega)]
      · rw [if_neg h2]
        rw [Function.update_noteq (by omega), Function.update_noteq (by omega)]
    · rw [if_neg hc]

/-- One step of the count1 loop at index 574 (the highest index the loop can
reach): the decoded quadruple writes its first two values at indices 574 and
575, the `i + 2 < 576` guard discards the second pair, and the loop
terminates with `i = 578`, whatever fuel remains. -/
theorem count1_loop_at_574
    (c1Dec : Nat → MP3MainDataBuffer → (Int × Int × Int × Int) × MP3MainDataBuffer)
    (c1sel p2s p3e fuel : Nat) (out : Nat → Int) (buf : MP3MainDataBuffer)
    (hpos : positon_isin_count1data buf.get_total_read_bits p2s p3e = true) :
    count1_loop c1Dec c1sel p2s p3e (fuel + 1) 574 out buf =
      (578,
       Function.update (Function.update out 574 (c1Dec c1sel buf).1.1) 575
         (c1Dec c1sel buf).1.2.1,
       (c1Dec c1sel buf).2) := by
  simp only [count1_loop]
  rw [if_pos ⟨by decide, hpos⟩, if_neg (by decide)]
  cases fuel with
  | zero => rfl
  | succ m =>
    simp only [count1_loop]
    rw [if_neg (fun hcon => absurd hcon.1 (by decide))]

/-- Reading one spectrum index out of a successful spectrum/buffer result. -/
theorem spectrum_component (a : Nat → Int) (b : MP3MainDataBuffer) (j : Nat) :
    Option.map (fun r : (Nat → Int) × MP3MainDataBuffer => r.1 j) (some (a, b))
      = some (a j) := rfl

/-- Claim C4: (a) a count1 quadruple decoded at index 574 writes only its
first two values, at indices 574 and 575, the second pair is discarded, and
the loop terminates; (b) `decode_huffman` never writes past index 575: the
spectrum at every index at or above 576 is exactly what the caller passed
in. -/
theorem claim_C4_count1_boundary :
    (∀ (c1Dec : Nat → MP3MainDataBuffer → (Int × Int × Int × Int) × MP3MainDataBuffer)
       (c1sel p2s p3e fuel : Nat) (out : Nat → Int) (buf : MP3MainDataBuffer),
       positon_isin_count1data buf.get_total_read_bits p2s p3e = true →
       count1_loop c1Dec c1sel p2s p3e (fuel + 1) 574 out buf =
         (578,
          Function.update (Function.update out 574 (c1Dec c1sel buf).1.1) 575
            (c1Dec c1sel buf).1.2.1,
          (c1Dec c1sel buf).2)) ∧
    (∀ (bigDec : Nat → MP3MainDataBuffer → (Int × Int) × MP3MainDataBuffer)
       (c1Dec : Nat → MP3MainDataBuffer → (Int × Int × Int × Int) × MP3MainDataBuffer)
       (long_table : Nat → Nat) (granule : MP3GranuleInformation)
       (part2_start : Nat) (out : Nat → Int) (buf : MP3MainDataBuffer) (j : Nat),
       2 * granule.big_values ≤ MP3_NUM_SAMPLES_PER_GRANULE →
       MP3_NUM_SAMPLES_PER_GRANULE ≤ j →
       (decode_huffman bigDec c1Dec long_table granule part2_start out buf).map
           (fun r => r.1 j) = some (out j)) := by
  constructor
  · exact count1_loop_at_574
  · intro bigDec c1Dec long_table granule part2_start out buf j hbv hj
    have hN : MP3_NUM_SAMPLES_PER_GRANULE = 576 := rfl
    have hbig := big_values_loop_frozen bigDec granule.table_select
      (huffman_regions long_table granule).1 (huffman_regions long_table granule).2
      (2 * granule.big_values) hbv (by omega) MP3_NUM_SAMPLES_PER_GRANULE 0
      out buf j (by omega) hj
    have hcnt := count1_loop_frozen c1Dec granule.count1table_select part2_start
      ((part2_start + granule.part2_3_length) % MP3_MAINDATA_BUFFER_SIZE_BITS)
      MP3_NUM_SAMPLES_PER_GRANULE (2 * granule.big_values)
      (big_values_loop bigDec granule.table_select
        (huffman_regions long_table granule).1 (huffman_regions long_table granule).2
        (2 * granule.big_values) MP3_NUM_SAMPLES_PER_GRANULE 0 out buf).1
      (big_values_loop bigDec granule.table_select
        (huffman_regions long_table granule).1 (huffman_regions long_table granule).2
        (2 * granule.big_values) MP3_NUM_SAMPLES_PER_GRANULE 0 out buf).2
      j (by omega) hj
    unfold decode_huffman
    rw [if_neg (not_not_intro hbv)]
    rw [spectrum_component]
    refine congrArg some ?_
    split <;> split <;>
      first
        | exact hcnt.trans hbig
        | (beta_reduce
           rw [if_neg (fun hcon => absurd hcon.2 (by omega))]
           exact hcnt.trans hbig)

/-- A concrete count1 decoding primitive used as witness input. -/
def c4Dec : Nat → MP3MainDataBuffer → (Int × Int × Int × Int) × MP3MainDataBuffer :=
  fun _ b => ((1, 2, 3, 4), b)

/-- Claim C4 witness: both parts of the boundary theorem applied to concrete
inputs (a loop entered at index 574, and a full `decode_huffman` run probed
at index 600). -/
theorem claim_C4_count1_boundary_witness :
    (positon_isin_count1data MP3MainDataBuffer.new.get_total_read_bits 0 5 = true ∧
     count1_loop c4Dec 0 0 5 1 574 (fun _ => 0) .new =
       (578,
        Function.update (Function.update (fun _ => 0) 574 (c4Dec 0 .new).1.1) 575
          (c4Dec 0 .new).1.2.1,
        (c4Dec 0 .new).2)) ∧
    (2 * MP3GranuleInformation.default.big_values ≤ MP3_NUM_SAMPLES_PER_GRANULE ∧
     MP3_NUM_SAMPLES_PER_GRANULE ≤ 600 ∧
     (decode_huffman (fun _ b => ((0, 0), b)) c4Dec (fun _ => 0) .default 0
         (fun _ => 0) .new).map (fun r => r.1 600) = some 0) :=
  ⟨⟨by decide,
    claim_C4_count1_boundary.1 c4Dec 0 0 5 0 (fun _ => 0) .new (by decide)⟩,
   ⟨by decide, by decide,
    claim_C4_count1_boundary.2 (fun _ b => ((0, 0), b)) c4Dec (fun _ => 0)
      .default 0 (fun _ => 0) .new 600 (by decide) (by decide)⟩⟩

/-- Elements read with `getD` inside the list are members of it. -/
theorem getD_mem (data : List Nat) (k : Nat) (hk : k < data.length) :
    data.getD k 0 ∈ data := by
  rw [List.getD_eq_getElem?_getD, List.getElem?_eq_getElem hk]
  exact List.getElem_mem hk

/-- Bits of the sync mask `0xFFF0`: exactly bits 4 through 15. -/
theorem testBit_syncMask (i : Nat) :
    (0xFFF0 : Nat).testBit i = (decide (4 ≤ i) && decide (i - 4 < 12)) := by
  have h : (0xFFF0 : Nat) = (2 ^ 12 - 1) <<< 4 := by decide
  rw [h, Nat.testBit_shiftLeft, Nat.testBit_two_pow_sub_one]

/-- Low 8 bits of the shifted-in pattern are the bits of the new byte. -/
theorem syncStep_testBit_low (x b i : Nat) (hi : i < 8) :
    (syncStep x b).testBit i = b.testBit i := by
  unfold syncStep
  rw [Nat.testBit_or, Nat.testBit_mod_two_pow, Nat.testBit_shiftLeft]
  have h8 : ¬ (i ≥ 8) := by omega
  simp [h8]

/-- Bits 8..15 of the shifted-in pattern are the bits of the previous
byte, the low byte of the old pattern. -/
theorem syncStep_testBit_high (x b a j : Nat) (hb : b < 256)
    (hx : x % 256 = a) (hj : j < 8) :
    (syncStep x b).testBit (j + 8) = a.testBit j := by
  unfold syncStep
  rw [Nat.testBit_or, Nat.testBit_mod_two_pow, Nat.testBit_shiftLeft]
  have hblt : b < 2 ^ (j + 8) := by
    calc b < 256 := hb
    _ = 2 ^ 8 := rfl
    _ ≤ 2 ^ (j + 8) := Nat.pow_le_pow_right (by norm_num) (by omega)
  rw [Nat.testBit_lt_two_pow hblt, Bool.or_false]
  have d1 : decide (j + 8 < 32) = true := decide_eq_true (by omega)
  have d2 : decide (j + 8 ≥ 8) = true := decide_eq_true (by omega)
  rw [d1, d2, Bool.true_and, Bool.true_and, Nat.add_sub_cancel]
  have h256 : (256 : Nat) = 2 ^ 8 := rfl
  rw [← hx, h256, Nat.testBit_mod_two_pow]
  have d3 : decide (j < 8) = true := decide_eq_true hj
  rw [d3, Bool.true_and]

/-- The low byte of the shifted-in pattern is the new byte. -/
theorem syncStep_mod256 (x b : Nat) (hb : b < 256) :
    syncStep x b % 256 = b := by
  have h256 : (256 : Nat) = 2 ^ 8 := rfl
  apply Nat.eq_of_testBit_eq
  intro i
  rw [h256, Nat.testBit_mod_two_pow]
  by_cases hi : i < 8
  · rw [decide_eq_true hi, Bool.true_and]
    exact syncStep_testBit_low x b i hi
  · rw [decide_eq_false hi, Bool.false_and]
    have hblt : b < 2 ^ i := by
      calc b < 256 := hb
      _ = 2 ^ 8 := rfl
      _ ≤ 2 ^ i := Nat.pow_le_pow_right (by norm_num) (by omega)
    exact (Nat.testBit_lt_two_pow hblt).symm

set_option maxRecDepth 4096 in
/-- A byte has all of its low 8 bits set exactly when it is 255. -/
theorem byte_bits_255 : ∀ a, a < 256 →
    ((∀ j, j < 8 → a.testBit j = true) ↔ a = 255) := by decide

set_option maxRecDepth 4096 in
/-- A byte has bits 4..7 set exactly when it is at least 240. -/
theorem byte_hi_nibble : ∀ b, b < 256 →
    ((∀ j, j < 8 → 4 ≤ j → b.testBit j = true) ↔ 240 ≤ b) := by decide

/-- The sync test of `find_sync_code` after shifting in byte `b` succeeds
exactly when the previous byte (the low byte `a` of the old pattern) is 255
and the top nibble of `b` is 15: the 12 most significant bits of the pair
`(a, b)` are 0xFFF. -/
theorem syncHit_iff (x a b : Nat) (ha : a < 256) (hb : b < 256)
    (hx : x % 256 = a) :
    syncHit (syncStep x b) = true ↔ (a = 255 ∧ 240 ≤ b) := by
  unfold syncHit
  rw [beq_iff_eq]
  constructor
  · intro hC
    have hone : ∀ i, 4 ≤ i → i < 16 →
        (syncStep x b).testBit i = true := by
      intro i h4 h16
      have hbits := congrArg (fun m => Nat.testBit m i) hC
      simp only [Nat.testBit_and, testBit_syncMask] at hbits
      have hm : (decide (4 ≤ i) && decide (i - 4 < 12)) = true := by
        simp only [Bool.and_eq_true, decide_eq_true_eq]
        omega
      rw [hm, Bool.and_true] at hbits
      exact hbits
    constructor
    · rw [← byte_bits_255 a ha]
      intro j hj
      rw [← syncStep_testBit_high x b a j hb hx hj]
      exact hone (j + 8) (by omega) (by omega)
    · rw [← byte_hi_nibble b hb]
      intro j hj h4
      rw [← syncStep_testBit_low x b j hj]
      exact hone j h4 (by omega)
  · rintro ⟨h255, h240⟩
    apply Nat.eq_of_testBit_eq
    intro i
    rw [Nat.testBit_and, testBit_syncMask]
    by_cases hmask : 4 ≤ i ∧ i - 4 < 12
    · have hm : (decide (4 ≤ i) && decide (i - 4 < 12)) = true := by
        simp only [Bool.and_eq_true, decide_eq_true_eq]
        omega
      rw [hm, Bool.and_true]
      by_cases hi8 : i < 8
      · rw [syncStep_testBit_low x b i hi8]
        exact (byte_hi_nibble b hb).mpr h240 i hi8 hmask.1
      · have hj : i - 8 < 8 := by omega
        have hstep : i = (i - 8) + 8 := by omega
        rw [hstep, syncStep_testBit_high x b a (i - 8) hb hx hj]
        exact (byte_bits_255 a ha).mpr h255 (i - 8) hj
    · have hm : (decide (4 ≤ i) && decide (i - 4 < 12)) = false := by
        rcases Decidable.not_and_iff_or_not.mp hmask with h | h <;> simp [h]
      rw [hm, Bool.and_false]

/-- The claim-side sync predicate in terms of the two byte values. -/
theorem sync_at_iff (data : List Nat) (p : Nat)
    (ha : data.getD p 0 < 256) (hb : data.getD (p + 1) 0 < 256) :
    sync_at data p ↔
      (data.getD p 0 = 255 ∧ 240 ≤ data.getD (p + 1) 0) := by
  unfold sync_at MP3_SYNC_CODE
  have key : (data.getD p 0 * 256 + data.getD (p + 1) 0) / 16 =
      data.getD (p + 1) 0 / 16 + data.getD p 0 * 16 := by
    have h : data.getD p 0 * 256 + data.getD (p + 1) 0 =
        data.getD (p + 1) 0 + 16 * (data.getD p 0 * 16) := by ring
    rw [h, Nat.add_mul_div_left _ _ (by norm_num : (0 : Nat) < 16)]
  rw [key]
  have hdm := Nat.div_add_mod (data.getD (p + 1) 0) 16
  have hml : data.getD (p + 1) 0 % 16 < 16 := Nat.mod_lt _ (by norm_num)
  omega

/-- Correctness of the scan loop of `find_sync_code`: entered at `pos` with
the invariant that the pattern's low byte is byte `pos - 1` and that no
earlier pair is a sync, the loop returns the first byte-aligned sync pair
among those it examines, pairs `(p, p+1)` with `p + 2 < data.length`; a
`none` result means no examined pair is a sync. -/
theorem findSyncLoop_correct (data : List Nat) (hB : ∀ x ∈ data, x < 256) :
    ∀ (fuel pos pattern : Nat), data.length - 1 - pos ≤ fuel → 1 ≤ pos →
      pattern % 256 = data.getD (pos - 1) 0 →
      (∀ q, q + 1 < pos → ¬ sync_at data q) →
      ((∀ p, findSyncLoop data pattern pos fuel = some p →
          p + 2 < data.length ∧ sync_at data p ∧ ∀ q, q < p → ¬ sync_at data q) ∧
       (findSyncLoop data pattern pos fuel = none →
          ∀ p, p + 2 < data.length → pos ≤ p + 1 → ¬ sync_at data p)) := by
  intro fuel
  induction fuel with
  | zero =>
    intro pos pattern hfuel h1 hpat hinv
    constructor
    · intro p hp
      exact Option.noConfusion hp
    · intro _ p hp2 hpos1
      exact absurd hp2 (by omega)
  | succ n ih =>
    intro pos pattern hfuel h1 hpat hinv
    by_cases hrange : pos < data.length - 1
    · have ha : data.getD (pos - 1) 0 < 256 :=
        hB _ (getD_mem data (pos - 1) (by omega))
      have hb : data.getD pos 0 < 256 :=
        hB _ (getD_mem data pos (by omega))
      have hsucc : pos - 1 + 1 = pos := by omega
      have hb' : data.getD (pos - 1 + 1) 0 < 256 := by
        rw [hsucc]
        exact hb
      have hiff : sync_at data (pos - 1) ↔
          (data.getD (pos - 1) 0 = 255 ∧ 240 ≤ data.getD pos 0) := by
        rw [sync_at_iff data (pos - 1) ha hb', hsucc]
      by_cases hhit : syncHit (syncStep pattern (data.getD pos 0)) = true
      · have hhit2 : syncHit (syncStep pattern ((data[pos]?).getD 0)) = true := by
          rw [← List.getD_eq_getElem?_getD]
          exact hhit
        have heq : findSyncLoop data pattern pos (n + 1) = some (pos - 1) := by
          simp [findSyncLoop, hrange, hhit2]
        have hsync : sync_at data (pos - 1) :=
          hiff.mpr ((syncHit_iff pattern (data.getD (pos - 1) 0)
            (data.getD pos 0) ha hb hpat).mp hhit)
        constructor
        · intro p hp
          rw [heq] at hp
          cases Option.some.inj hp
          refine ⟨by omega, hsync, ?_⟩
          intro q hq
          exact hinv q (by omega)
        · intro hnone
          rw [heq] at hnone
          exact Option.noConfusion hnone
      · have hhit2 : ¬ syncHit (syncStep pattern ((data[pos]?).getD 0)) = true := by
          rw [← List.getD_eq_getElem?_getD]
          exact hhit
        have heq : findSyncLoop data pattern pos (n + 1) =
            findSyncLoop data (syncStep pattern (data.getD pos 0)) (pos + 1) n := by
          simp [findSyncLoop, hrange, hhit2]
        have hnosync : ¬ sync_at data (pos - 1) := by
          rw [hiff]
          intro hcon
          exact hhit ((syncHit_iff pattern (data.getD (pos - 1) 0)
            (data.getD pos 0) ha hb hpat).mpr hcon)
        have hpat' : syncStep pattern (data.getD pos 0) % 256 =
            data.getD (pos + 1 - 1) 0 :=
          syncStep_mod256 pattern (data.getD pos 0) hb
        have hinv' : ∀ q, q + 1 < pos + 1 → ¬ sync_at data q := by
          intro q hq
          rcases Nat.lt_or_ge (q + 1) pos with h | h
          · exact hinv q h
          · have hq1 : q = pos - 1 := by omega
            rw [hq1]
            exact hnosync
        have IH := ih (pos + 1) (syncStep pattern (data.getD pos 0))
          (by omega) (by omega) hpat' hinv'
        constructor
        · intro p hp
          rw [heq] at hp
          exact IH.1 p hp
        · intro hnone p hp2 hpos1
          rw [heq] at hnone
          rcases Nat.lt_or_ge (p + 1) (pos + 1) with h | h
          · have hp1 : p = pos - 1 := by omega
            rw [hp1]
            exact hnosync
          · exact IH.2 hnone p hp2 (by omega)
    · have heq : findSyncLoop data pattern pos (n + 1) = none := by
        simp [findSyncLoop, hrange]
      constructor
      · intro p hp
        rw [heq] at hp
        exact Option.noConfusion hp
      · intro _ p hp2 hpos1
        exact absurd hp2 (by omega)

/-- C6 (amended): for byte slices, `find_sync_code` returns `some p` only
for the smallest index of a byte-aligned sync pair, and that index always
satisfies `p + 2 < data.length` — the scan loop runs `pos` over
`1..(data.len() - 1)` and tests the pair `(pos - 1, pos)`, so the pair
ending at the final byte is never examined; dually, `none` only certifies
the absence of a sync among the pairs with `p + 2 < data.length`, not in
the whole slice. -/
theorem claim_C6_find_sync_code (data : List Nat) (hB : ∀ x ∈ data, x < 256) :
    (∀ p, find_sync_code data = some p →
        p + 2 < data.length ∧ sync_at data p ∧ ∀ q, q < p → ¬ sync_at data q) ∧
    (find_sync_code data = none →
        ∀ p, p + 2 < data.length → ¬ sync_at data p) := by
  unfold find_sync_code
  by_cases hlen : data.length < 2
  · rw [if_pos hlen]
    constructor
    · intro p hp
      exact Option.noConfusion hp
    · intro _ p hp2
      exact absurd hp2 (by omega)
  · rw [if_neg hlen]
    have hpat : data.getD 0 0 % 256 = data.getD (1 - 1) 0 :=
      Nat.mod_eq_of_lt (hB _ (getD_mem data 0 (by omega)))
    have key := findSyncLoop_correct data hB data.length 1 (data.getD 0 0)
      (by omega) (by omega) hpat (fun q hq => absurd hq (by omega))
    refine ⟨fun p hp => key.1 p hp, fun hn p hp2 => key.2 hn p hp2 (by omega)⟩

/-- C6 counterexample to the unamended claim: in the two-byte slice
`[0xFF, 0xF0]` the pair at index 0 is a byte-aligned sync, yet
`find_sync_code` returns `none`, because the loop never tests the pair
ending at the last byte. -/
theorem claim_C6_counterexample :
    sync_at [255, 240] 0 ∧ 0 + 1 < ([255, 240] : List Nat).length ∧
      find_sync_code [255, 240] = none := by
  refine ⟨?_, by decide, by decide⟩
  unfold sync_at
  decide

/-- C6 witness: on the slice `[0, 0xFF, 0xFA, 7]` the amended theorem
applies and yields the sync at index 1. -/
theorem claim_C6_find_sync_code_witness :
    1 + 2 < ([0, 255, 250, 7] : List Nat).length ∧ sync_at [0, 255, 250, 7] 1 ∧
      ∀ q, q < 1 → ¬ sync_at [0, 255, 250, 7] q :=
  (claim_C6_find_sync_code [0, 255, 250, 7] (by decide)).1 1 (by decide)

end BareMP3
